import Mathlib

/-!
Shallow embedding of the resolution-reason renderer (`renderReason` /
`ResolutionBox`) and of `getIncidentDiscoverUrl` from the repository's
TypeScript sources, together with theorems settling the spec claims.

Modelling conventions:
* Optional TypeScript fields become `Option`; JavaScript truthiness of an
  optional boolean / string is made explicit via `truthyBool` / `truthyStr`
  (`undefined`, `false` and the empty string are falsy; an object is truthy
  iff present, i.e. `Option.isSome`).
* The rich React output of `renderReason` is modelled by the inductive
  `Message`: one constructor per distinct message template, carrying exactly
  the data the template embeds (the actor node, the version string plus the
  `projectId` handed to the `Version` renderer, or the commit fields).
* External collaborators of `getIncidentDiscoverUrl` that live outside the
  excerpted sources (`getStartEndFromStats`, `getAggregateAlias`,
  `EventView.fromSavedQuery` composed with `getResultsViewUrlTarget`, and
  JavaScript `Number`) are taken as parameters, so every theorem about it
  holds for all implementations of those collaborators.
-/

namespace Sentry

/-- The user identity attached to a resolution (`statusDetails.actor`). -/
structure Actor where
  name : String
deriving DecidableEq

/-- The commit reference stored in `statusDetails.inCommit`. -/
structure Commit where
  id : String
  repository : String
  dateCreated : String
deriving DecidableEq

/-- `ResolutionStatusDetails`: every field optional, as in the source type. -/
structure ResolutionStatusDetails where
  actor : Option Actor := none
  inNextRelease : Option Bool := none
  inRelease : Option String := none
  inCommit : Option Commit := none
deriving DecidableEq

/-- Activity type tags; `other` collapses every tag different from
`SET_RESOLVED_IN_RELEASE`, which is the only one `renderReason` inspects. -/
inductive GroupActivityType where
  | setResolvedInRelease
  | other (tag : String)
deriving DecidableEq

/-- Payload of an activity entry; only `current_release_version` (an optional
string on the `set-resolved-in-release` variant) is ever read. -/
structure GroupActivityData where
  current_release_version : Option String := none
deriving DecidableEq

/-- One entry of the activity history. -/
structure GroupActivity where
  type : GroupActivityType
  data : GroupActivityData
deriving DecidableEq

/-- JavaScript truthiness of an optional boolean: truthy iff present and
`true`. -/
def truthyBool : Option Bool → Bool
  | none => false
  | some b => b

/-- JavaScript truthiness of an optional string: truthy iff present and
non-empty. -/
def truthyStr : Option String → Bool
  | none => false
  | some s => !s.isEmpty

/-- The distinct message templates `renderReason` can return, one constructor
per `t`/`tct` call site, carrying the values embedded at the placeholders. -/
inductive Message where
  | upcomingWithActor (actor : Option Actor)
  | upcoming
  | resolvedInVersionsGreaterThanWithActor (actor : Option Actor)
      (version : String) (projectId : String)
  | resolvedInVersionWithActor (actor : Option Actor)
      (version : String) (projectId : String)
  | resolvedInVersionsGreaterThan (version : String) (projectId : String)
  | resolvedInVersion (version : String) (projectId : String)
  | resolvedByCommit (commitId : String) (repository : String)
      (dateCreated : String)
  | resolved
deriving DecidableEq

/-- `activities.find(activity => activity.type ===
GroupActivityType.SET_RESOLVED_IN_RELEASE)`: linear scan, first match. -/
def relevantActivityOf (activities : List GroupActivity) :
    Option GroupActivity :=
  activities.find? fun a =>
    a.type == GroupActivityType.setResolvedInRelease

/-- `relevantActivity?.data.current_release_version` (the trailing `!` in the
source is a compile-time non-null assertion with no runtime effect, so the
value stays optional). -/
def currentReleaseVersionOf (activities : List GroupActivity) :
    Option String :=
  (relevantActivityOf activities).bind fun a =>
    a.data.current_release_version

/-- `renderReason(statusDetails, projectId, activities)`: the guarded branch
chain of the source, with JavaScript truthiness made explicit.  The source's
top-level `let` bindings (`actor`, `relevantActivity`,
`currentReleaseVersion`) are inlined at their use sites. -/
def renderReason (statusDetails : ResolutionStatusDetails)
    (projectId : String) (activities : List GroupActivity) : Message :=
  if truthyBool statusDetails.inNextRelease && statusDetails.actor.isSome then
    Message.upcomingWithActor statusDetails.actor
  else if truthyBool statusDetails.inNextRelease then
    Message.upcoming
  else if truthyStr statusDetails.inRelease && statusDetails.actor.isSome then
    if truthyStr (currentReleaseVersionOf activities) then
      Message.resolvedInVersionsGreaterThanWithActor statusDetails.actor
        ((currentReleaseVersionOf activities).getD "") projectId
    else
      Message.resolvedInVersionWithActor statusDetails.actor
        (statusDetails.inRelease.getD "") projectId
  else if truthyStr statusDetails.inRelease then
    if truthyStr (currentReleaseVersionOf activities) then
      Message.resolvedInVersionsGreaterThan
        ((currentReleaseVersionOf activities).getD "") projectId
    else
      Message.resolvedInVersion (statusDetails.inRelease.getD "") projectId
  else
    match statusDetails.inCommit with
    | some c => Message.resolvedByCommit c.id c.repository c.dateCreated
    | none => Message.resolved

/-- The banner content produced by the `ResolutionBox` component: a banner of
priority `"default"` holding the message from `renderReason`. -/
structure BannerContent where
  priority : String
  message : Message
deriving DecidableEq

/-- `ResolutionBox({statusDetails, projectId, activities = []})`: the
`activities` prop is optional and destructures to `[]` when absent. -/
def ResolutionBox (statusDetails : ResolutionStatusDetails)
    (projectId : String) (activities : Option (List GroupActivity)) :
    BannerContent :=
  { priority := "default"
    message :=
      renderReason statusDetails projectId (activities.getD []) }

/-- The four-way priority order of the spec ("next-release > release >
commit > generic-resolved"). -/
inductive PriorityBranch where
  | nextRelease
  | release
  | commit
  | fallbackResolved
deriving DecidableEq

/-- Modelled from the spec's words: the branch the fixed priority order
selects, first match wins (next-release > release > commit >
generic-resolved). -/
def specPriorityBranch (sd : ResolutionStatusDetails) : PriorityBranch :=
  if truthyBool sd.inNextRelease then PriorityBranch.nextRelease
  else if truthyStr sd.inRelease then PriorityBranch.release
  else if sd.inCommit.isSome then PriorityBranch.commit
  else PriorityBranch.fallbackResolved

/-- Which of the four priority families a message template belongs to. -/
def messagePriorityBranch : Message → PriorityBranch
  | Message.upcomingWithActor _ => PriorityBranch.nextRelease
  | Message.upcoming => PriorityBranch.nextRelease
  | Message.resolvedInVersionsGreaterThanWithActor _ _ _ =>
      PriorityBranch.release
  | Message.resolvedInVersionWithActor _ _ _ => PriorityBranch.release
  | Message.resolvedInVersionsGreaterThan _ _ => PriorityBranch.release
  | Message.resolvedInVersion _ _ => PriorityBranch.release
  | Message.resolvedByCommit _ _ _ => PriorityBranch.commit
  | Message.resolved => PriorityBranch.fallbackResolved

/-- The six guarded message branches of the spec's algorithm (steps 2-7):
next-release with/without actor, release with/without actor, commit,
generic fallback. -/
inductive SpecBranch where
  | nextReleaseWithActor
  | nextReleaseNoActor
  | releaseWithActor
  | releaseNoActor
  | commitRef
  | genericFallback
deriving DecidableEq

/-- Modelled from the spec's words: the unique guarded branch selected by the
algorithm's strict top-to-bottom order, actor presence deciding attributed
vs. passive phrasing. -/
def specBranchOf (sd : ResolutionStatusDetails) : SpecBranch :=
  if truthyBool sd.inNextRelease then
    if sd.actor.isSome then SpecBranch.nextReleaseWithActor
    else SpecBranch.nextReleaseNoActor
  else if truthyStr sd.inRelease then
    if sd.actor.isSome then SpecBranch.releaseWithActor
    else SpecBranch.releaseNoActor
  else if sd.inCommit.isSome then SpecBranch.commitRef
  else SpecBranch.genericFallback

/-- Which guarded branch a message template was produced by. -/
def messageSpecBranch : Message → SpecBranch
  | Message.upcomingWithActor _ => SpecBranch.nextReleaseWithActor
  | Message.upcoming => SpecBranch.nextReleaseNoActor
  | Message.resolvedInVersionsGreaterThanWithActor _ _ _ =>
      SpecBranch.releaseWithActor
  | Message.resolvedInVersionWithActor _ _ _ => SpecBranch.releaseWithActor
  | Message.resolvedInVersionsGreaterThan _ _ => SpecBranch.releaseNoActor
  | Message.resolvedInVersion _ _ => SpecBranch.releaseNoActor
  | Message.resolvedByCommit _ _ _ => SpecBranch.commitRef
  | Message.resolved => SpecBranch.genericFallback

/-- The linear scan skips every non-matching entry and stops at the first
entry tagged `set-resolved-in-release`, whatever follows it. -/
lemma relevantActivityOf_first (pre rest : List GroupActivity)
    (e : GroupActivity)
    (hpre : ∀ a ∈ pre, ¬ a.type = GroupActivityType.setResolvedInRelease)
    (he : e.type = GroupActivityType.setResolvedInRelease) :
    relevantActivityOf (pre ++ e :: rest) = some e := by
  unfold relevantActivityOf
  induction pre with
  | nil => simp [List.find?_cons, he]
  | cons a as ih =>
    have ha : ¬ a.type = GroupActivityType.setResolvedInRelease :=
      hpre a (by simp)
    have has : ∀ x ∈ as, ¬ x.type = GroupActivityType.setResolvedInRelease :=
      fun x hx => hpre x (by simp [hx])
    simpa [List.find?_cons, ha] using ih has

/-- Consequence for the extracted version: the first matching entry's
`current_release_version` is the one used. -/
lemma currentReleaseVersionOf_first (pre rest : List GroupActivity)
    (e : GroupActivity)
    (hpre : ∀ a ∈ pre, ¬ a.type = GroupActivityType.setResolvedInRelease)
    (he : e.type = GroupActivityType.setResolvedInRelease) :
    currentReleaseVersionOf (pre ++ e :: rest) =
      e.data.current_release_version := by
  unfold currentReleaseVersionOf
  rw [relevantActivityOf_first pre rest e hpre he]
  rfl

/-- Claim C1: `renderReason` selects its branch by the fixed priority order
next-release > release > commit > generic-resolved, first match wins; in
particular, whenever `inNextRelease` is truthy and `actor` is present the
output is the upcoming-release-with-actor message, regardless of
`inRelease`, `inCommit` and the activity history. -/
theorem renderReason_priority_first_match (sd : ResolutionStatusDetails)
    (pid : String) (acts : List GroupActivity) :
    messagePriorityBranch (renderReason sd pid acts) = specPriorityBranch sd ∧
    (truthyBool sd.inNextRelease = true → sd.actor.isSome = true →
      renderReason sd pid acts = Message.upcomingWithActor sd.actor) := by
  constructor
  · cases hN : truthyBool sd.inNextRelease <;>
      cases hA : sd.actor.isSome <;>
      cases hR : truthyStr sd.inRelease <;>
      cases hV : truthyStr (currentReleaseVersionOf acts) <;>
      cases hC : sd.inCommit <;>
      simp [renderReason, specPriorityBranch, messagePriorityBranch,
        hN, hA, hR, hV, hC]
  · intro hN hA
    simp [renderReason, hN, hA]

/-- Concrete instance of C1: actor present, `inNextRelease`, `inRelease` and
`inCommit` all set, non-trivial history — the upcoming-release-with-actor
message wins. -/
def sdC1 : ResolutionStatusDetails :=
  { actor := some ⟨"Alice"⟩, inNextRelease := some true,
    inRelease := some "1.2.0", inCommit := some ⟨"deadbeef", "repo", "2021"⟩ }

/-- Witness for C1 at a concrete input. -/
theorem renderReason_priority_first_match_witness :
    truthyBool sdC1.inNextRelease = true ∧ sdC1.actor.isSome = true ∧
    renderReason sdC1 "proj" [] = Message.upcomingWithActor sdC1.actor :=
  ⟨rfl, rfl, (renderReason_priority_first_match sdC1 "proj" []).2 rfl rfl⟩

/-- Status details for the C2 analysis: no next-release flag, release set,
actor present. -/
def sdC2 : ResolutionStatusDetails :=
  { actor := some ⟨"Alice"⟩, inRelease := some "1.2.0" }

/-- Activity history whose first `set-resolved-in-release` entry carries no
`current_release_version` while a later one does. -/
def actsC2 : List GroupActivity :=
  [⟨GroupActivityType.setResolvedInRelease, ⟨none⟩⟩,
   ⟨GroupActivityType.setResolvedInRelease, ⟨some "1.3.0"⟩⟩]

/-- Counterexample to claim C2 as stated: the history contains a
`set-resolved-in-release` entry with a non-empty `current_release_version`
("1.3.0"), yet the output is the raw-version message with "1.2.0", not the
"versions greater than 1.3.0" message, because the lookup stops at the
first matching entry, which has no version. -/
theorem renderReason_enrich_counterexample :
    truthyBool sdC2.inNextRelease = false ∧
    sdC2.inRelease = some "1.2.0" ∧
    sdC2.actor.isSome = true ∧
    (∃ a, a ∈ actsC2 ∧ a.type = GroupActivityType.setResolvedInRelease ∧
      a.data.current_release_version = some "1.3.0" ∧ ¬ ("1.3.0" : String) = "") ∧
    ¬ renderReason sdC2 "proj" actsC2 =
        Message.resolvedInVersionsGreaterThanWithActor sdC2.actor
          "1.3.0" "proj" ∧
    renderReason sdC2 "proj" actsC2 =
      Message.resolvedInVersionWithActor sdC2.actor "1.2.0" "proj" := by
  refine ⟨rfl, rfl, rfl, ⟨⟨GroupActivityType.setResolvedInRelease,
    ⟨some "1.3.0"⟩⟩, by simp [actsC2], rfl, rfl, by decide⟩, by decide, by decide⟩

/-- Claim C2 as amended: with `inNextRelease` falsy, `inRelease` truthy and
`actor` present, if the *first* `set-resolved-in-release` entry of the
history carries a non-empty `current_release_version`, the output is the
"{actor} marked this issue as resolved in versions greater than
{current_release_version}" message embedding that version, not the raw
`inRelease` value. -/
theorem renderReason_enrich_first_match (sd : ResolutionStatusDetails)
    (pid : String) (pre rest : List GroupActivity) (e : GroupActivity)
    (v : String)
    (hN : truthyBool sd.inNextRelease = false)
    (hR : truthyStr sd.inRelease = true)
    (hA : sd.actor.isSome = true)
    (hpre : ∀ a ∈ pre, ¬ a.type = GroupActivityType.setResolvedInRelease)
    (he : e.type = GroupActivityType.setResolvedInRelease)
    (hv : e.data.current_release_version = some v)
    (hne : ¬ v = "") :
    renderReason sd pid (pre ++ e :: rest) =
      Message.resolvedInVersionsGreaterThanWithActor sd.actor v pid := by
  have hcv := currentReleaseVersionOf_first pre rest e hpre he
  rw [hv] at hcv
  have hV : truthyStr (some v) = true := by
    have hemp : v.isEmpty = false := by
      cases h : v.isEmpty with
      | false => rfl
      | true => exact absurd ((String.isEmpty_iff v).mp h) hne
    simp [truthyStr, hemp]
  simp [renderReason, hN, hR, hA, hcv, hV]

/-- Witness for the amended C2 at a concrete input: one non-matching entry
followed by a matching entry carrying "1.3.0" and a later matching entry
carrying "9.9.9"; the output embeds "1.3.0". -/
theorem renderReason_enrich_first_match_witness :
    renderReason sdC2 "proj"
        ([⟨GroupActivityType.other "note", ⟨none⟩⟩] ++
          ⟨GroupActivityType.setResolvedInRelease, ⟨some "1.3.0"⟩⟩ ::
            [⟨GroupActivityType.setResolvedInRelease, ⟨some "9.9.9"⟩⟩]) =
      Message.resolvedInVersionsGreaterThanWithActor sdC2.actor
        "1.3.0" "proj" :=
  renderReason_enrich_first_match sdC2 "proj"
    [⟨GroupActivityType.other "note", ⟨none⟩⟩]
    [⟨GroupActivityType.setResolvedInRelease, ⟨some "9.9.9"⟩⟩]
    ⟨GroupActivityType.setResolvedInRelease, ⟨some "1.3.0"⟩⟩ "1.3.0"
    rfl rfl rfl (by decide) rfl rfl (by decide)

/-- A present, non-empty string is truthy. -/
lemma truthyStr_some_of_ne (v : String) (hne : ¬ v = "") :
    truthyStr (some v) = true := by
  have hemp : v.isEmpty = false := by
    cases h : v.isEmpty with
    | false => rfl
    | true => exact absurd ((String.isEmpty_iff v).mp h) hne
  simp [truthyStr, hemp]

/-- Claim C3: with `inNextRelease` falsy, `inRelease` set to `v`, actor
present, and a history that is empty, has no `set-resolved-in-release`
entry, or whose matching entry carries no `current_release_version`, the
output is the raw-version message embedding the stored `inRelease` value. -/
theorem renderReason_raw_version_fallback (sd : ResolutionStatusDetails)
    (pid : String) (acts : List GroupActivity) (v : String)
    (hN : truthyBool sd.inNextRelease = false)
    (hR : sd.inRelease = some v) (hv : ¬ v = "")
    (hA : sd.actor.isSome = true)
    (hH : acts = [] ∨
      (∀ a ∈ acts, ¬ a.type = GroupActivityType.setResolvedInRelease) ∨
      (∃ a, relevantActivityOf acts = some a ∧
        a.data.current_release_version = none)) :
    renderReason sd pid acts =
      Message.resolvedInVersionWithActor sd.actor v pid := by
  have hcv : currentReleaseVersionOf acts = none := by
    rcases hH with h | h | ⟨a, ha, hav⟩
    · subst h; rfl
    · have hfind : relevantActivityOf acts = none := by
        unfold relevantActivityOf
        rw [List.find?_eq_none]
        intro x hx
        simpa using h x hx
      unfold currentReleaseVersionOf
      rw [hfind]
      rfl
    · unfold currentReleaseVersionOf
      rw [ha]
      simpa using hav
  have hVt : truthyStr (some v) = true := truthyStr_some_of_ne v hv
  have hnone : truthyStr none = false := rfl
  simp [renderReason, hN, hA, hcv, hR, hVt, hnone]

/-- Concrete C3 input: actor and `inRelease` present, empty history. -/
def sdC3 : ResolutionStatusDetails :=
  { actor := some ⟨"Alice"⟩, inRelease := some "1.2.0" }

/-- Witness for C3: with an empty history the raw stored version "1.2.0" is
embedded. -/
theorem renderReason_raw_version_fallback_witness :
    renderReason sdC3 "proj" [] =
      Message.resolvedInVersionWithActor sdC3.actor "1.2.0" "proj" :=
  renderReason_raw_version_fallback sdC3 "proj" [] "1.2.0" rfl rfl
    (by decide) rfl (Or.inl rfl)

/-- Claim C4: with `inNextRelease` and `inRelease` falsy and `inCommit` set,
the output is the commit message embedding the commit id, repository and
`dateCreated`; its constructor carries no actor and no version, whatever
the actor and history are. -/
theorem renderReason_commit_branch (sd : ResolutionStatusDetails)
    (pid : String) (acts : List GroupActivity) (c : Commit)
    (hN : truthyBool sd.inNextRelease = false)
    (hR : truthyStr sd.inRelease = false)
    (hC : sd.inCommit = some c) :
    renderReason sd pid acts =
      Message.resolvedByCommit c.id c.repository c.dateCreated := by
  simp [renderReason, hN, hR, hC]

/-- Concrete C4 input: commit set, actor also present. -/
def sdC4 : ResolutionStatusDetails :=
  { actor := some ⟨"Bob"⟩, inCommit := some ⟨"abc123", "acme/app", "2021-05-01"⟩ }

/-- Witness for C4: even with an actor present, the commit message is
produced. -/
theorem renderReason_commit_branch_witness :
    renderReason sdC4 "proj" [] =
      Message.resolvedByCommit "abc123" "acme/app" "2021-05-01" :=
  renderReason_commit_branch sdC4 "proj" [] ⟨"abc123", "acme/app", "2021-05-01"⟩
    rfl rfl rfl

/-- Claim C5: with none of `inNextRelease`, `inRelease`, `inCommit` set, the
output is exactly the generic fallback message, for any actor and any
history. -/
theorem renderReason_generic_fallback (sd : ResolutionStatusDetails)
    (pid : String) (acts : List GroupActivity)
    (hN : truthyBool sd.inNextRelease = false)
    (hR : truthyStr sd.inRelease = false)
    (hC : sd.inCommit = none) :
    renderReason sd pid acts = Message.resolved := by
  simp [renderReason, hN, hR, hC]

/-- Concrete C5 input: only an actor, plus a history that even contains a
matching entry with a version. -/
def sdC5 : ResolutionStatusDetails := { actor := some ⟨"Eve"⟩ }

/-- History used by the C5 witness. -/
def actsC5 : List GroupActivity :=
  [⟨GroupActivityType.setResolvedInRelease, ⟨some "2.0.0"⟩⟩]

/-- Witness for C5. -/
theorem renderReason_generic_fallback_witness :
    renderReason sdC5 "proj" actsC5 = Message.resolved :=
  renderReason_generic_fallback sdC5 "proj" actsC5 rfl rfl rfl

/-- Claim C6: whenever the status details select the next-release, commit or
fallback branch (i.e. `inNextRelease` truthy or `inRelease` falsy), the
output does not depend on the activity history at all. -/
theorem renderReason_activities_irrelevant (sd : ResolutionStatusDetails)
    (pid : String) (acts1 acts2 : List GroupActivity)
    (h : truthyBool sd.inNextRelease = true ∨ truthyStr sd.inRelease = false) :
    renderReason sd pid acts1 = renderReason sd pid acts2 := by
  rcases h with h | h
  · cases hA : sd.actor.isSome <;> simp [renderReason, h, hA]
  · simp [renderReason, h]

/-- Concrete C6 input: commit branch selected. -/
def sdC6 : ResolutionStatusDetails := { inCommit := some ⟨"c0ffee", "r", "d"⟩ }

/-- History used by the C6 witness: contains a matching enrichment entry that
must make no difference. -/
def actsC6 : List GroupActivity :=
  [⟨GroupActivityType.setResolvedInRelease, ⟨some "3.1.4"⟩⟩]

/-- Witness for C6: empty history and enriched history yield the same
message. -/
theorem renderReason_activities_irrelevant_witness :
    renderReason sdC6 "proj" [] = renderReason sdC6 "proj" actsC6 :=
  renderReason_activities_irrelevant sdC6 "proj" [] actsC6 (Or.inr rfl)

/-- Claim C7: `renderReason` is a total function (it is a Lean `def`, so it
can neither throw nor diverge) and, for every combination of
present/absent optional fields and every history, the message it returns
belongs to exactly the one guarded branch selected by the spec's
enumeration, with the generic fallback as the universal last branch. -/
theorem renderReason_total_unique_branch (sd : ResolutionStatusDetails)
    (pid : String) (acts : List GroupActivity) :
    messageSpecBranch (renderReason sd pid acts) = specBranchOf sd := by
  cases hN : truthyBool sd.inNextRelease <;>
    cases hA : sd.actor.isSome <;>
    cases hR : truthyStr sd.inRelease <;>
    cases hV : truthyStr (currentReleaseVersionOf acts) <;>
    cases hC : sd.inCommit <;>
    simp [renderReason, specBranchOf, messageSpecBranch, hN, hA, hR, hV, hC]

/-- Claim C8: the history lookup is a linear scan with early exit — for any
prefix free of `set-resolved-in-release` entries, the entry found is the
first matching one, and the `current_release_version` used is that entry's,
whatever matching entries follow. -/
theorem currentReleaseVersion_first_match (pre rest : List GroupActivity)
    (e : GroupActivity)
    (hpre : ∀ a ∈ pre, ¬ a.type = GroupActivityType.setResolvedInRelease)
    (he : e.type = GroupActivityType.setResolvedInRelease) :
    relevantActivityOf (pre ++ e :: rest) = some e ∧
    currentReleaseVersionOf (pre ++ e :: rest) =
      e.data.current_release_version :=
  ⟨relevantActivityOf_first pre rest e hpre he,
   currentReleaseVersionOf_first pre rest e hpre he⟩

/-- First matching entry for the C8 witness. -/
def actC8a : GroupActivity :=
  ⟨GroupActivityType.setResolvedInRelease, ⟨some "1.3.0"⟩⟩

/-- Second matching entry for the C8 witness; its version must be ignored. -/
def actC8b : GroupActivity :=
  ⟨GroupActivityType.setResolvedInRelease, ⟨some "9.9.9"⟩⟩

/-- Non-matching entry preceding both. -/
def actC8c : GroupActivity := ⟨GroupActivityType.other "comment", ⟨none⟩⟩

/-- Witness for C8: with two matching entries the first one ("1.3.0") is
selected, not the last ("9.9.9"). -/
theorem currentReleaseVersion_first_match_witness :
    relevantActivityOf ([actC8c] ++ actC8a :: [actC8b]) = some actC8a ∧
    currentReleaseVersionOf ([actC8c] ++ actC8a :: [actC8b]) =
      actC8a.data.current_release_version :=
  currentReleaseVersion_first_match [actC8c] [actC8b] actC8a
    (by decide) rfl

/-- Claim C9: invoking `ResolutionBox` without the `activities` prop is the
same as passing the empty list, and its rendered message is
`renderReason statusDetails projectId []`. -/
theorem resolutionBox_default_activities (sd : ResolutionStatusDetails)
    (pid : String) :
    ResolutionBox sd pid none = ResolutionBox sd pid (some []) ∧
    (ResolutionBox sd pid none).message = renderReason sd pid [] :=
  ⟨rfl, rfl⟩

/-! ### `getIncidentDiscoverUrl`

External collaborators (`getStartEndFromStats`, `getAggregateAlias`,
`EventView.fromSavedQuery` composed with `getResultsViewUrlTarget`, and
JavaScript `Number`) live outside the excerpted sources; they are taken as
parameters, as are the types of the stats record and of the produced query
and path objects, so the theorems hold for every implementation. -/

/-- A project record: only `id` and `slug` are read. -/
structure Project where
  id : String
  slug : String
deriving DecidableEq

/-- The alert-rule dataset discriminator compared against `Dataset.ERRORS`. -/
inductive Dataset where
  | errors
  | transactions
deriving DecidableEq

/-- The alert-rule fields `getIncidentDiscoverUrl` reads. -/
structure AlertRule where
  timeWindow : Nat
  aggregate : String
  dataset : Dataset
deriving DecidableEq

/-- The incident fields `getIncidentDiscoverUrl` reads; `projects` holds the
incident's project slugs. -/
structure Incident where
  title : String
  alertRule : AlertRule
  discoverQuery : Option String := none
  projects : List String
deriving DecidableEq

/-- The `NewQuery` object assembled by `getIncidentDiscoverUrl` (`startTime`
and `endTime` stand for the source's `start`/`end` keys; `end` is a Lean
keyword). -/
structure NewQuery where
  id : Option String
  name : String
  orderby : String
  yAxis : Option (List String)
  query : String
  projects : List Int
  version : Nat
  fields : List String
  startTime : String
  endTime : String
deriving DecidableEq

/-- `Partial<NewQuery>`: each field is present (and then overrides) or
absent, matching the semantics of the object spread `...extraQueryParams`. -/
structure NewQueryOverrides where
  id : Option (Option String) := none
  name : Option String := none
  orderby : Option String := none
  yAxis : Option (Option (List String)) := none
  query : Option String := none
  projects : Option (List Int) := none
  version : Option Nat := none
  fields : Option (List String) := none
  startTime : Option String := none
  endTime : Option String := none

/-- The object spread `{...discoverQuery, ...extraQueryParams}`: a present
override key replaces the base value. -/
def applyOverrides (base : NewQuery) (o : NewQueryOverrides) : NewQuery :=
  { id := o.id.getD base.id
    name := o.name.getD base.name
    orderby := o.orderby.getD base.orderby
    yAxis := o.yAxis.getD base.yAxis
    query := o.query.getD base.query
    projects := o.projects.getD base.projects
    version := o.version.getD base.version
    fields := o.fields.getD base.fields
    startTime := o.startTime.getD base.startTime
    endTime := o.endTime.getD base.endTime }

/-- The function's result: the empty string `''` on the early return, or the
URL target object `{query: {...query, interval}, ...toObject}` — modelled as
the inner query object, the added `interval` string, and the remaining
target fields. -/
inductive DiscoverUrlResult (Query Path : Type) where
  | emptyString : DiscoverUrlResult Query Path
  | target (query : Query) (interval : String) (rest : Path) :
      DiscoverUrlResult Query Path

/-- `getIncidentDiscoverUrl(opts)`: early return of `''` when `projects` is
absent or empty, `incident` is absent or `stats` is absent; otherwise the
discover query is assembled and turned into a URL target.  Truthiness of
the source guard `!projects || !projects.length || !incident || !stats` is
rendered by the `Option` pattern match plus the emptiness test. -/
def getIncidentDiscoverUrl {Stats Query Path : Type}
    (getStartEndFromStats : Stats → String × String)
    (getAggregateAlias : String → String)
    (toNumber : String → Int)
    (getResultsViewUrlTarget : NewQuery → String → Query × Path)
    (orgSlug : String) (projects : Option (List Project))
    (incident : Option Incident) (stats : Option Stats)
    (extraQueryParams : Option NewQueryOverrides) :
    DiscoverUrlResult Query Path :=
  match projects, incident, stats with
  | some ps, some inc, some st =>
    if ps.isEmpty then DiscoverUrlResult.emptyString
    else
      let timeWindowString := toString inc.alertRule.timeWindow ++ "m"
      let se := getStartEndFromStats st
      let discoverQuery : NewQuery :=
        { id := none
          name := inc.title
          orderby := "-" ++ getAggregateAlias inc.alertRule.aggregate
          yAxis :=
            if inc.alertRule.aggregate.isEmpty then none
            else some [inc.alertRule.aggregate]
          query := inc.discoverQuery.getD ""
          projects :=
            (ps.filter fun p => inc.projects.contains p.slug).map
              fun p => toNumber p.id
          version := 2
          fields :=
            if inc.alertRule.dataset = Dataset.errors then
              ["issue", "count()", "count_unique(user)"]
            else ["transaction", inc.alertRule.aggregate]
          startTime := se.1
          endTime := se.2 }
      let merged :=
        match extraQueryParams with
        | some o => applyOverrides discoverQuery o
        | none => discoverQuery
      let qp := getResultsViewUrlTarget merged orgSlug
      DiscoverUrlResult.target qp.1 timeWindowString qp.2
  | _, _, _ => DiscoverUrlResult.emptyString

/-- Claim C10: the result is the empty string exactly when `projects` is
absent or empty, `incident` is absent, or `stats` is absent; with all three
present a URL target object is built and returned.  Quantified over every
implementation of the external collaborators. -/
theorem getIncidentDiscoverUrl_empty_iff {Stats Query Path : Type}
    (gse : Stats → String × String) (gaa : String → String)
    (tn : String → Int) (grvt : NewQuery → String → Query × Path)
    (orgSlug : String) (projects : Option (List Project))
    (incident : Option Incident) (stats : Option Stats)
    (extra : Option NewQueryOverrides) :
    getIncidentDiscoverUrl gse gaa tn grvt orgSlug projects incident stats
        extra = DiscoverUrlResult.emptyString ↔
      (projects = none ∨ projects = some [] ∨ incident = none ∨
        stats = none) := by
  cases projects with
  | none => simp [getIncidentDiscoverUrl]
  | some ps =>
    cases incident with
    | none => simp [getIncidentDiscoverUrl]
    | some inc =>
      cases stats with
      | none => simp [getIncidentDiscoverUrl]
      | some st =>
        cases ps with
        | nil => simp [getIncidentDiscoverUrl]
        | cons p ps => simp [getIncidentDiscoverUrl]

/-- Witness for C10 at concrete inputs: absent stats give the empty string;
with all three inputs present (instantiating the collaborators trivially at
`Stats = Query = Path = Unit`) the result is not the empty string. -/
theorem getIncidentDiscoverUrl_empty_iff_witness :
    getIncidentDiscoverUrl (fun _ : Unit => ("", "")) (fun s => s)
        (fun _ => (0 : Int)) (fun _ _ => ((), ())) "org"
        (some [⟨"1", "app"⟩]) (some ⟨"t", ⟨5, "count()", Dataset.errors⟩,
          none, ["app"]⟩) none none = DiscoverUrlResult.emptyString :=
  (getIncidentDiscoverUrl_empty_iff (fun _ : Unit => ("", "")) (fun s => s)
    (fun _ => (0 : Int)) (fun _ _ => ((), ())) "org"
    (some [⟨"1", "app"⟩]) (some ⟨"t", ⟨5, "count()", Dataset.errors⟩,
      none, ["app"]⟩) none none).mpr (Or.inr (Or.inr (Or.inr rfl)))

end Sentry
